import Mathlib

/-!
Verification development for the oogoo scraping pipeline.

The Python sources are shallowly embedded:
* Python `str` values are modelled as Lean `String` / `List Char`.
* `datetime` values are modelled as natural numbers of seconds since
  0001-01-01 00:00:00 (proleptic Gregorian, `datetime.min` of CPython),
  so `datetime.now() - timedelta(...)` raising `OverflowError` below
  `datetime.min` is an explicit `Except` error.
* `re.search` for the five literal/numeric Arabic patterns is modelled by
  a leftmost-position scanner over character lists.
* Browser-driver operations (page loads, element queries) are external
  collaborators; their outcomes enter the model as explicit parameters.
-/

/-- ASCII decimal digit, `'0'`..`'9'`. -/
def isAsciiDigit (c : Char) : Bool :=
  decide ('0' ≤ c) && decide (c ≤ '9')

/-- Arabic-Indic decimal digit, U+0660..U+0669. -/
def isArabicIndicDigit (c : Char) : Bool :=
  decide ('٠' ≤ c) && decide (c ≤ '٩')

/-- Extended Arabic-Indic decimal digit, U+06F0..U+06F9. -/
def isExtArabicIndicDigit (c : Char) : Bool :=
  decide ('۰' ≤ c) && decide (c ≤ '۹')

/-- Model of Python's `\d` character class for `str` patterns: Unicode
decimal digits.  The model covers the digit ranges that can occur in this
domain (ASCII and the two Arabic-Indic ranges). -/
def isPyDigit (c : Char) : Bool :=
  isAsciiDigit c || isArabicIndicDigit c || isExtArabicIndicDigit c

/-- Numeric value of one decimal digit character (as `int()` reads it). -/
def digitVal (c : Char) : Nat :=
  if isAsciiDigit c then c.toNat - '0'.toNat
  else if isArabicIndicDigit c then c.toNat - '٠'.toNat
  else if isExtArabicIndicDigit c then c.toNat - '۰'.toNat
  else 0

/-- `int()` applied to a nonempty digit string (the regex capture group). -/
def digitsToNat (ds : List Char) : Nat :=
  ds.foldl (fun a c => a * 10 + digitVal c) 0

/-- Python truthiness of an optional string: `None` and `""` are falsy. -/
def pyTruthy : Option String → Bool
  | none => false
  | some s => !s.data.isEmpty

/-- Characters of an optional string (`""` for `None`); only consulted
under a truthiness guard, mirroring the Python code. -/
def strChars (rd : Option String) : List Char := (rd.getD "").data

/-- Does `pat` occur at the head of `s`?  (Literal pattern match at one
position.) -/
def leadMatch : List Char → List Char → Bool
  | [], _ => true
  | _ :: _, [] => false
  | p :: ps, c :: cs => if p = c then leadMatch ps cs else false

/-- Drop a literal pattern from the head of `s`, or fail. -/
def dropLead : List Char → List Char → Option (List Char)
  | [], s => some s
  | _ :: _, [] => none
  | p :: ps, c :: cs => if p = c then dropLead ps cs else none

/-- `re.search` of a literal pattern: does `pat` occur anywhere in `s`? -/
def containsSub (pat : List Char) : List Char → Bool
  | [] => leadMatch pat []
  | c :: cs => leadMatch pat (c :: cs) || containsSub pat cs

/-- Maximal leading run of `\d` characters. -/
def takeDigits : List Char → List Char
  | [] => []
  | c :: cs => if isPyDigit c then c :: takeDigits cs else []

/-- Remainder after the maximal leading run of `\d` characters. -/
def dropDigits : List Char → List Char
  | [] => []
  | c :: cs => if isPyDigit c then dropDigits cs else c :: cs

/-- True when the list does not start with a `\d` character. -/
def headNotDigit : List Char → Bool
  | [] => true
  | c :: _ => !isPyDigit c

/-- Attempt to match the regex `PRE(\d+)SUF` at one fixed position.  The
two suffixes used by the source (`" ساعة"`, `" أيام"`) start with a
non-digit, so the greedy `(\d+)` with backtracking matches exactly the
maximal digit run; the value of the capture group is returned. -/
def matchNumAt (pre suf s : List Char) : Option Nat :=
  match dropLead pre s with
  | none => none
  | some rest =>
    if (takeDigits rest).isEmpty then none
    else
      match dropLead suf (dropDigits rest) with
      | none => none
      | some _ => some (digitsToNat (takeDigits rest))

/-- `re.search` of `PRE(\d+)SUF`: scan positions left to right and return
the first capture, as `int()` of the captured group. -/
def searchNum (pre suf : List Char) : List Char → Option Nat
  | [] => none
  | c :: cs =>
    match matchNumAt pre suf (c :: cs) with
    | some n => some n
    | none => searchNum pre suf cs

/-- Shared stem `"نُشر منذ "` of the source's Arabic patterns. -/
def preChars : List Char := "نُشر منذ ".data

/-- Suffix of `hour_pattern = 'نُشر منذ (\d+) ساعة'`. -/
def hourSufChars : List Char := " ساعة".data

/-- Suffix of `day_pattern = 'نُشر منذ (\d+) يوم'`; this pattern is
defined in the source but never applied to the input. -/
def daySufChars : List Char := " يوم".data

/-- `one_day_pattern = 'نُشر منذ يوم'` (literal, no capture). -/
def oneDayChars : List Char := "نُشر منذ يوم".data

/-- `two_days_pattern = 'نُشر منذ يومين'` (literal, no capture). -/
def twoDaysChars : List Char := "نُشر منذ يومين".data

/-- Suffix of `three_days_pattern = 'نُشر منذ (\d+) أيام'`. -/
def threeSufChars : List Char := " أيام".data

/-- Zero-padded two-digit field of `strftime`. -/
def pad2 (n : Nat) : String :=
  if n < 10 then "0" ++ toString n else toString n

/-- Zero-padded four-digit year field of `strftime`. -/
def pad4 (n : Nat) : String :=
  if n < 10 then "000" ++ toString n
  else if n < 100 then "00" ++ toString n
  else if n < 1000 then "0" ++ toString n
  else toString n

/-- Proleptic-Gregorian date from a day count, day 0 = 0001-01-01.
Standard era-based civil-from-days computation, shifted to the
0000-03-01 epoch (306 days before 0001-01-01). -/
def civilFromDays (days : Nat) : Nat × Nat × Nat :=
  let z := days + 306
  let era := z / 146097
  let doe := z % 146097
  let yoe := (doe - doe / 1460 + doe / 36524 - doe / 146096) / 365
  let y := yoe + era * 400
  let doy := doe - (365 * yoe + yoe / 4 - yoe / 100)
  let mp := (5 * doy + 2) / 153
  let d := doy - (153 * mp + 2) / 5 + 1
  let m := if mp < 10 then mp + 3 else mp - 9
  (if m ≤ 2 then y + 1 else y, m, d)

/-- `datetime.strftime("%Y-%m-%d %H:%M:%S")` on a seconds count. -/
def strftime (t : Nat) : String :=
  let days := t / 86400
  let secs := t % 86400
  let ymd := civilFromDays days
  pad4 ymd.1 ++ "-" ++ pad2 ymd.2.1 ++ "-" ++ pad2 ymd.2.2 ++ " " ++
    pad2 (secs / 3600) ++ ":" ++ pad2 (secs % 3600 / 60) ++ ":" ++ pad2 (secs % 60)

/-- `timedelta(hours=n)` in seconds; raises `OverflowError` when the
normalized day component exceeds 999999999 days. -/
def timedeltaHours (n : Nat) : Except Unit Nat :=
  if n * 3600 / 86400 ≤ 999999999 then .ok (n * 3600) else .error ()

/-- `timedelta(days=n)` in seconds; raises `OverflowError` when `n`
exceeds 999999999 days. -/
def timedeltaDays (n : Nat) : Except Unit Nat :=
  if n ≤ 999999999 then .ok (n * 86400) else .error ()

/-- `datetime - timedelta`; raises `OverflowError` when the result falls
below `datetime.min` (second 0 of the model). -/
def dtSub (t delta : Nat) : Except Unit Nat :=
  if delta ≤ t then .ok (t - delta) else .error ()

/-- The `current_time - timedelta(days=3)` default of the normalizer. -/
def fallback3 (ct : Nat) : Except Unit String :=
  match timedeltaDays 3 with
  | .error e => .error e
  | .ok d =>
    match dtSub ct d with
    | .error e => .error e
    | .ok pt => .ok (strftime pt)

/-- The rule chain of `get_publish_date_arabic`, shared verbatim between
`oogoo_used.py` and `oogoo_certified.py`: hours first, then the singular
and dual literal day phrasings, then the general N-days phrasing, else
the 3-day default.  Errors are the `timedelta`/`datetime` overflows. -/
def arabicRuleChain (s : List Char) (ct : Nat) : Except Unit String :=
  match searchNum preChars hourSufChars s with
  | some hours_ago =>
    (match timedeltaHours hours_ago with
     | .error e => .error e
     | .ok d =>
       match dtSub ct d with
       | .error e => .error e
       | .ok pt => .ok (strftime pt))
  | none =>
    if containsSub oneDayChars s then
      (match timedeltaDays 1 with
       | .error e => .error e
       | .ok d =>
         match dtSub ct d with
         | .error e => .error e
         | .ok pt => .ok (strftime pt))
    else if containsSub twoDaysChars s then
      (match timedeltaDays 2 with
       | .error e => .error e
       | .ok d =>
         match dtSub ct d with
         | .error e => .error e
         | .ok pt => .ok (strftime pt))
    else
      match searchNum preChars threeSufChars s with
      | some days_ago =>
        (match timedeltaDays days_ago with
         | .error e => .error e
         | .ok d =>
           match dtSub ct d with
           | .error e => .error e
           | .ok pt => .ok (strftime pt))
      | none => fallback3 ct

/-- True when none of the four applied pattern rules matches `s`. -/
def noRuleMatches (s : List Char) : Bool :=
  (searchNum preChars hourSufChars s).isNone &&
  !containsSub oneDayChars s &&
  !containsSub twoDaysChars s &&
  (searchNum preChars threeSufChars s).isNone

namespace OogooUsed

/-- `OogooUsed.get_publish_date_arabic` (src/oogoo_used.py lines
239-279).  Each rule is guarded by the same truthiness test of
`relative_date`, so a falsy input skips every rule and takes the 3-day
default.  The `except` handler returns `None`. -/
def get_publish_date_arabic (relative_date : Option String) (current_time : Nat) :
    Option String :=
  match (if pyTruthy relative_date = true then
           arabicRuleChain (strChars relative_date) current_time
         else fallback3 current_time) with
  | .ok s => some s
  | .error _ => none

end OogooUsed

namespace OogooCertified

/-- `OogooCertified.get_publish_date_arabic` (src/oogoo_certified.py
lines 290-336).  A falsy `relative_date` takes the 3-day default up
front; the `except` handler recomputes `datetime.now() -
timedelta(days=3)` (the clock is modelled as constant within one call)
and that subtraction itself can raise, hence the `Except` result. -/
def get_publish_date_arabic (relative_date : Option String) (current_time : Nat) :
    Except Unit String :=
  match (if pyTruthy relative_date = true then
           arabicRuleChain (strChars relative_date) current_time
         else fallback3 current_time) with
  | .ok s => .ok s
  | .error _ => fallback3 current_time

end OogooCertified

/-- 2024-07-15 12:00:00 as model seconds (ordinal day 739082 of the
proleptic Gregorian calendar). -/
def t0 : Nat := 739081 * 86400 + 43200

namespace OogooUsed

/-- The retry loop of `OogooUsed.get_car_details` (src/oogoo_used.py
lines 31-63), one step per remaining loop index.  `outcome i` is the
externally determined result of attempt `i`: `.ok recs` when the
attempt's page load and card loop finish, appending `recs`; `.error
recs` when the attempt throws after appending the partial `recs`.  The
accumulator `cars` persists across attempts (no rollback); `pages`
counts `context.new_page()` calls, and the `finally` block opens a
fresh page whenever `attempt + 1 < retries`, on success and failure
alike. -/
def walkGo {α : Type} (outcome : Nat → Except (List α) (List α)) (total : Nat) :
    List Nat → List α → Nat → List α × Nat
  | [], cars, pages => (cars, pages)
  | attempt :: rest, cars, pages =>
    match outcome attempt with
    | .ok recs => (cars ++ recs, if attempt + 1 < total then pages + 1 else pages)
    | .error recs =>
      let cars2 := cars ++ recs
      let pages2 := if attempt + 1 < total then pages + 1 else pages
      if attempt + 1 = total then (cars2, pages2)
      else walkGo outcome total rest cars2 pages2

/-- `OogooUsed.get_car_details` (src/oogoo_used.py lines 20-67): one
page is opened before the loop, then the retry loop runs over `range
retries`; the accumulated records and the page-open count are
returned, and no attempt failure escapes. -/
def get_car_details {α : Type} (outcome : Nat → Except (List α) (List α))
    (retries : Nat) : List α × Nat :=
  walkGo outcome retries (List.range retries) [] 1

end OogooUsed

/-- Concatenation `p a ++ p (a+1) ++ ...` of `n` per-attempt partial
record lists, front first. -/
def catFrom {α : Type} (p : Nat → List α) (a : Nat) : Nat → List α
  | 0 => []
  | n + 1 => p a ++ catFrom p (a + 1) n

/-- The records appended by the final attempt, successful or not. -/
def lastRecs {α : Type} (outcome : Nat → Except (List α) (List α)) (total : Nat) :
    List α :=
  match outcome (total - 1) with
  | .ok r => r
  | .error r => r

/-- The `{submitter, relative_date}` sub-record of `scrape_submitter`. -/
structure SubmitterRec where
  submitter : Option String
  relative_date : Option String
deriving DecidableEq, Repr

/-- The detail-field record assembled by `scrape_more_details`. -/
structure DetailRecord where
  submitter : Option SubmitterRec
  specification : List (String × String)
  description : String
  phone_number : Option String
  ad_id : Option String
  relative_date : Option String
  date_published : Option String
deriving DecidableEq, Repr

/-- The all-empty detail record returned on an invalid URL and on a
navigation failure (src/oogoo_used.py lines 117-125 and 152-160). -/
def emptyDetail : DetailRecord :=
  { submitter := none
    specification := []
    description := "No Description Found"
    phone_number := none
    ad_id := none
    relative_date := none
    date_published := none }

/-- Characters of the canonical origin `"https://oogoocar.com"`. -/
def originChars : List Char := "https://oogoocar.com".data

/-- `scrape_more_details` (src/oogoo_used.py lines 114-160; the function
in src/oogoo_certified.py lines 152-198 is identical at this level).
`fetch` is the externally determined outcome of the navigate-and-extract
block (lines 128-148): `.error ()` when navigation or extraction throws.
The second component records whether `page.goto` was reached. -/
def scrape_more_details (url : Option String) (fetch : Except Unit DetailRecord) :
    DetailRecord × Bool :=
  if !(pyTruthy url && leadMatch originChars (strChars url)) then
    (emptyDetail, false)
  else
    match fetch with
    | .ok r => (r, true)
    | .error _ => (emptyDetail, true)

/-- The `{model, distance}` record of `scrape_title`. -/
structure TitleRecord where
  model : Option String
  distance : Option String
deriving DecidableEq, Repr

/-- `scrape_title` (src/oogoo_used.py lines 94-112).  The input models
the DOM scope: `none` when the `.title-car` container is missing,
otherwise the inner texts of the first and second `span` sub-elements
(each `none` when that sub-element is missing). -/
def scrape_title (card : Option (Option String × Option String)) : TitleRecord :=
  match card with
  | none => { model := none, distance := none }
  | some (modelEl, distanceEl) =>
    { model := some (modelEl.getD "Model not found")
      distance := some (distanceEl.getD "Distance not found") }

/-- The module-level credential check of src/main.py lines 11-12,
evaluated at import time, before any scraping object exists.  `env` is
`os.environ` as a key-value list; the check is key membership. -/
def mainModuleCheck (env : List (String × String)) : Except String Unit :=
  if (env.map Prod.fst).contains "OGO_GCLOUD_KEY_JSON" then .ok ()
  else .error "OGO_GCLOUD_KEY_JSON not found."

/-- Outcome of the showrooms uploader: a completed upload, or an error
swallowed into a log line. -/
inductive UploadResult where
  | uploaded
  | loggedError (msg : String)
deriving DecidableEq, Repr

/-- Body of `DetailsScraping.upload_to_drive` (src/oogoo_showrooms.py
lines 460-480) up to its own `except`: `os.environ.get` of the
credential followed by the falsiness check that raises
`EnvironmentError`.  The drive calls on a present credential are
abstracted as success, since the claims concern only the credential
fault path. -/
def showrooms_upload_body (env : List (String × String)) : Except String Unit :=
  match List.lookup "SHOWROOMS_GCLOUD_KEY_JSON" env with
  | none => .error "SHOWROOMS_GCLOUD_KEY_JSON environment variable not found"
  | some v =>
    if v.data.isEmpty then
      .error "SHOWROOMS_GCLOUD_KEY_JSON environment variable not found"
    else .ok ()

/-- `DetailsScraping.upload_to_drive` (src/oogoo_showrooms.py lines
459-483): the whole body sits in a `try` whose `except` logs the error
and returns normally. -/
def showrooms_upload_to_drive (env : List (String × String)) : UploadResult :=
  match showrooms_upload_body env with
  | .ok _ => .uploaded
  | .error e => .loggedError ("Error uploading to Google Drive: " ++ e)

/-- Tail of `DetailsScraping.get_car_details` (src/oogoo_showrooms.py
lines 252-315): scraping runs first and its accumulated data survives
any upload outcome; `upload_to_drive` runs only afterwards, and only
when an Excel file was produced. -/
def showrooms_get_car_details {α : Type} (env : List (String × String))
    (scraped : List α) (excelFile : Option String) : List α × Option UploadResult :=
  (scraped, excelFile.map (fun _ => showrooms_upload_to_drive env))

/-- One row of walker output as seen by the coordinator's date filter;
only the `date_published` field is consulted by `filter_data`. -/
structure CarRecord where
  date_published : Option String
deriving DecidableEq, Repr

/-- Python `str.split()` with no separator: split on runs of whitespace,
dropping empty pieces. -/
def splitWSAux : List Char → List Char → List (List Char)
  | [], acc => if acc.isEmpty then [] else [acc.reverse]
  | c :: cs, acc =>
    if c.isWhitespace then
      (if acc.isEmpty then splitWSAux cs [] else acc.reverse :: splitWSAux cs [])
    else splitWSAux cs (c :: acc)

/-- Python `str.split()` with no separator. -/
def pySplitWS (s : List Char) : List (List Char) := splitWSAux s []

/-- `car.get("date_published", "").split()[0]` on a record that carries
the `date_published` key (walker records always do): `None.split()`
raises `AttributeError` and `"".split()[0]` raises `IndexError`, both
modelled as `.error ()`. -/
def pySplitHead (d : Option String) : Except Unit String :=
  match d with
  | none => .error ()
  | some s =>
    match pySplitWS s.data with
    | [] => .error ()
    | w :: _ => .ok (String.mk w)

/-- `ScraperMain.filter_data` (src/main.py lines 53-61) restricted to
one category list: cars are examined in order and matching ones
appended; the returned flag records whether an exception was raised,
in which case the cars from the faulting record onwards were never
examined while the earlier appends stand. -/
def filter_data (yesterday : String) : List CarRecord → List CarRecord × Bool
  | [] => ([], false)
  | car :: rest =>
    match pySplitHead car.date_published with
    | .error _ => ([], true)
    | .ok d =>
      if d = yesterday then
        ((car :: (filter_data yesterday rest).1), (filter_data yesterday rest).2)
      else filter_data yesterday rest

/-- Whether `filter_data` would append this record. -/
def keepsCar (yesterday : String) (c : CarRecord) : Bool :=
  match pySplitHead c.date_published with
  | .ok d => d == yesterday
  | .error _ => false

/-- One page step of `ScraperMain.scrape_used` (src/main.py lines
29-38): the walker call and `filter_data` share one `try`, whose
`except` only logs, so a `filter_data` exception leaves the appends
made before the fault in `data_used`. -/
def scrape_used_page (yesterday : String) (walkResult : Except Unit (List CarRecord))
    (data_used : List CarRecord) : List CarRecord :=
  match walkResult with
  | .error _ => data_used
  | .ok cars => data_used ++ (filter_data yesterday cars).1

/-- A record published on 2024-07-14, the filter's target day in the
concrete instances below. -/
def goodCar : CarRecord := { date_published := some "2024-07-14 12:00:00" }

/-- A record whose `date_published` is `None`. -/
def badCar : CarRecord := { date_published := none }

/-- The loop indices `a, a+1, ..., a+n-1`, mirroring Python's
`range` shifted to start `a`. -/
def rangeFrom (a : Nat) : Nat → List Nat
  | 0 => []
  | n + 1 => a :: rangeFrom (a + 1) n

/-- A non-empty detail record used to exercise the short-circuit path. -/
def sampleDetail : DetailRecord :=
  { submitter := some { submitter := some "dealer", relative_date := some "نُشر منذ يوم" }
    specification := ("الموديل", "2015") :: []
    description := "sample description"
    phone_number := some "96555555555"
    ad_id := some "12345"
    relative_date := some "نُشر منذ يوم"
    date_published := some "2024-07-14 12:00:00" }

/-- Whether an `Except` value is a success. -/
def exceptOk {ε α : Type} : Except ε α → Bool
  | .ok _ => true
  | .error _ => false

lemma digit_ne {c d : Char} (hc : isAsciiDigit c = false)
    (hd : isAsciiDigit d = true) : c ≠ d := by
  intro h
  rw [h, hd] at hc
  exact absurd hc (by decide)

lemma leadMatch_cons (p c : Char) (ps cs : List Char) :
    leadMatch (p :: ps) (c :: cs) = if p = c then leadMatch ps cs else false := rfl

lemma leadMatch_head_ne {p c : Char} (ps cs : List Char) (h : p ≠ c) :
    leadMatch (p :: ps) (c :: cs) = false := by
  rw [leadMatch_cons, if_neg h]

lemma dropLead_head_ne {p c : Char} (ps cs : List Char) (h : p ≠ c) :
    dropLead (p :: ps) (c :: cs) = none := by
  show (if p = c then dropLead ps cs else none) = none
  rw [if_neg h]

lemma dropLead_append (a r : List Char) : dropLead a (a ++ r) = some r := by
  induction a with
  | nil => rfl
  | cons x xs ih =>
    show (if x = x then dropLead xs (xs ++ r) else none) = some r
    rw [if_pos rfl, ih]

lemma dropLead_self (a : List Char) : dropLead a a = some [] := by
  have h := dropLead_append a []
  rwa [List.append_nil] at h

lemma leadMatch_append_both (a t r : List Char) :
    leadMatch (a ++ t) (a ++ r) = leadMatch t r := by
  induction a with
  | nil => rfl
  | cons x xs ih =>
    show (if x = x then leadMatch (xs ++ t) (xs ++ r) else false) = leadMatch t r
    rw [if_pos rfl, ih]

lemma not_digit_of_headNotDigit {c : Char} {cs : List Char}
    (h : headNotDigit (c :: cs) = true) : isPyDigit c = false := by
  cases hb : isPyDigit c
  · rfl
  · rw [show headNotDigit (c :: cs) = !isPyDigit c from rfl, hb] at h
    exact absurd h (by decide)

lemma takeDigits_append (ds rest : List Char)
    (h : ∀ c ∈ ds, isAsciiDigit c = true)
    (hr : headNotDigit rest = true) :
    takeDigits (ds ++ rest) = ds := by
  induction ds with
  | nil =>
    cases rest with
    | nil => rfl
    | cons c cs =>
      show (if isPyDigit c then c :: takeDigits cs else []) = []
      rw [not_digit_of_headNotDigit hr, if_neg (by simp)]
  | cons d ds ih =>
    have hd : isPyDigit d = true := by
      unfold isPyDigit
      rw [h d (List.mem_cons_self d ds)]
      rfl
    show (if isPyDigit d then d :: takeDigits (ds ++ rest) else []) = d :: ds
    rw [hd, if_pos rfl, ih (fun c hc => h c (List.mem_cons_of_mem d hc))]

lemma dropDigits_append (ds rest : List Char)
    (h : ∀ c ∈ ds, isAsciiDigit c = true)
    (hr : headNotDigit rest = true) :
    dropDigits (ds ++ rest) = rest := by
  induction ds with
  | nil =>
    cases rest with
    | nil => rfl
    | cons c cs =>
      show (if isPyDigit c then dropDigits cs else c :: cs) = c :: cs
      rw [not_digit_of_headNotDigit hr, if_neg (by simp)]
  | cons d ds ih =>
    have hd : isPyDigit d = true := by
      unfold isPyDigit
      rw [h d (List.mem_cons_self d ds)]
      rfl
    show (if isPyDigit d then dropDigits (ds ++ rest) else d :: ds ++ rest) = rest
    rw [hd, if_pos rfl, ih (fun c hc => h c (List.mem_cons_of_mem d hc))]

lemma matchNumAt_at_zero_some (suf ds rest r : List Char) (hne : ds ≠ [])
    (hdig : ∀ c ∈ ds, isAsciiDigit c = true)
    (hr : headNotDigit rest = true)
    (hsuf : dropLead suf rest = some r) :
    matchNumAt preChars suf (preChars ++ (ds ++ rest)) = some (digitsToNat ds) := by
  simp only [matchNumAt, dropLead_append, takeDigits_append ds rest hdig hr,
    dropDigits_append ds rest hdig hr, hsuf]
  cases ds with
  | nil => exact absurd rfl hne
  | cons d ds2 => rfl

lemma matchNumAt_at_zero_none (suf ds rest : List Char)
    (hdig : ∀ c ∈ ds, isAsciiDigit c = true)
    (hr : headNotDigit rest = true)
    (hsuf : dropLead suf rest = none) :
    matchNumAt preChars suf (preChars ++ (ds ++ rest)) = none := by
  simp only [matchNumAt, dropLead_append, takeDigits_append ds rest hdig hr,
    dropDigits_append ds rest hdig hr, hsuf]
  cases ds with
  | nil => rfl
  | cons d ds2 => rfl

lemma matchNumAt_digit_head (suf : List Char) {d : Char} (t : List Char)
    (hd : isAsciiDigit d = true) : matchNumAt preChars suf (d :: t) = none := by
  unfold matchNumAt
  rw [show preChars = 'ن' :: 'ُ' :: 'ش' :: 'ر' :: ' ' :: 'م' :: 'ن' :: 'ذ' :: ' ' :: [] from rfl,
    dropLead_head_ne _ _ (digit_ne (by decide) hd)]

lemma searchNum_cons (pre suf : List Char) (c : Char) (cs : List Char) :
    searchNum pre suf (c :: cs)
      = match matchNumAt pre suf (c :: cs) with
        | some n => some n
        | none => searchNum pre suf cs := rfl

lemma searchNum_skip_one {pre suf : List Char} {c : Char} {cs : List Char}
    (h : matchNumAt pre suf (c :: cs) = none) :
    searchNum pre suf (c :: cs) = searchNum pre suf cs := by
  rw [searchNum_cons, h]

lemma searchNum_skip_digits (suf : List Char) (ds rest : List Char)
    (hdig : ∀ c ∈ ds, isAsciiDigit c = true) :
    searchNum preChars suf (ds ++ rest) = searchNum preChars suf rest := by
  induction ds with
  | nil => rfl
  | cons d ds ih =>
    rw [List.cons_append,
      searchNum_skip_one (matchNumAt_digit_head suf _ (hdig d (List.mem_cons_self d ds))),
      ih (fun c hc => hdig c (List.mem_cons_of_mem d hc))]

lemma searchNum_skip_pre (suf X : List Char)
    (h0 : matchNumAt preChars suf (preChars ++ X) = none) :
    searchNum preChars suf (preChars ++ X) = searchNum preChars suf X := by
  have e : preChars ++ X
      = 'ن' :: 'ُ' :: 'ش' :: 'ر' :: ' ' :: 'م' :: 'ن' :: 'ذ' :: ' ' :: X := rfl
  rw [e] at h0 ⊢
  rw [searchNum_skip_one h0]
  rw [searchNum_skip_one
    (show matchNumAt preChars suf ('ُ' :: 'ش' :: 'ر' :: ' ' :: 'م' :: 'ن' :: 'ذ' :: ' ' :: X) = none from rfl)]
  rw [searchNum_skip_one
    (show matchNumAt preChars suf ('ش' :: 'ر' :: ' ' :: 'م' :: 'ن' :: 'ذ' :: ' ' :: X) = none from rfl)]
  rw [searchNum_skip_one
    (show matchNumAt preChars suf ('ر' :: ' ' :: 'م' :: 'ن' :: 'ذ' :: ' ' :: X) = none from rfl)]
  rw [searchNum_skip_one
    (show matchNumAt preChars suf (' ' :: 'م' :: 'ن' :: 'ذ' :: ' ' :: X) = none from rfl)]
  rw [searchNum_skip_one
    (show matchNumAt preChars suf ('م' :: 'ن' :: 'ذ' :: ' ' :: X) = none from rfl)]
  rw [searchNum_skip_one
    (show matchNumAt preChars suf ('ن' :: 'ذ' :: ' ' :: X) = none from rfl)]
  rw [searchNum_skip_one
    (show matchNumAt preChars suf ('ذ' :: ' ' :: X) = none from rfl)]
  rw [searchNum_skip_one
    (show matchNumAt preChars suf (' ' :: X) = none from rfl)]

lemma containsSub_cons (pat : List Char) (c : Char) (cs : List Char) :
    containsSub pat (c :: cs) = (leadMatch pat (c :: cs) || containsSub pat cs) := rfl

lemma containsSub_skip_one {pat : List Char} {c : Char} {cs : List Char}
    (h : leadMatch pat (c :: cs) = false) :
    containsSub pat (c :: cs) = containsSub pat cs := by
  rw [containsSub_cons, h, Bool.false_or]

lemma leadMatch_preT_digit (t : List Char) {d : Char} (rest : List Char)
    (hd : isAsciiDigit d = true) : leadMatch (preChars ++ t) (d :: rest) = false := by
  rw [show preChars ++ t
      = 'ن' :: 'ُ' :: 'ش' :: 'ر' :: ' ' :: 'م' :: 'ن' :: 'ذ' :: ' ' :: t from rfl]
  exact leadMatch_head_ne _ _ (digit_ne (by decide) hd)

lemma containsSub_skip_digits (t ds rest : List Char)
    (hdig : ∀ c ∈ ds, isAsciiDigit c = true) :
    containsSub (preChars ++ t) (ds ++ rest) = containsSub (preChars ++ t) rest := by
  induction ds with
  | nil => rfl
  | cons d ds ih =>
    rw [List.cons_append,
      containsSub_skip_one (leadMatch_preT_digit t _ (hdig d (List.mem_cons_self d ds))),
      ih (fun c hc => hdig c (List.mem_cons_of_mem d hc))]

lemma containsSub_skip_pre (t X : List Char)
    (h0 : leadMatch (preChars ++ t) (preChars ++ X) = false) :
    containsSub (preChars ++ t) (preChars ++ X) = containsSub (preChars ++ t) X := by
  have e : preChars ++ X
      = 'ن' :: 'ُ' :: 'ش' :: 'ر' :: ' ' :: 'م' :: 'ن' :: 'ذ' :: ' ' :: X := rfl
  rw [e] at h0 ⊢
  rw [containsSub_skip_one h0]
  rw [containsSub_skip_one
    (show leadMatch (preChars ++ t) ('ُ' :: 'ش' :: 'ر' :: ' ' :: 'م' :: 'ن' :: 'ذ' :: ' ' :: X) = false from rfl)]
  rw [containsSub_skip_one
    (show leadMatch (preChars ++ t) ('ش' :: 'ر' :: ' ' :: 'م' :: 'ن' :: 'ذ' :: ' ' :: X) = false from rfl)]
  rw [containsSub_skip_one
    (show leadMatch (preChars ++ t) ('ر' :: ' ' :: 'م' :: 'ن' :: 'ذ' :: ' ' :: X) = false from rfl)]
  rw [containsSub_skip_one
    (show leadMatch (preChars ++ t) (' ' :: 'م' :: 'ن' :: 'ذ' :: ' ' :: X) = false from rfl)]
  rw [containsSub_skip_one
    (show leadMatch (preChars ++ t) ('م' :: 'ن' :: 'ذ' :: ' ' :: X) = false from rfl)]
  rw [containsSub_skip_one
    (show leadMatch (preChars ++ t) ('ن' :: 'ذ' :: ' ' :: X) = false from rfl)]
  rw [containsSub_skip_one
    (show leadMatch (preChars ++ t) ('ذ' :: ' ' :: X) = false from rfl)]
  rw [containsSub_skip_one
    (show leadMatch (preChars ++ t) (' ' :: X) = false from rfl)]

lemma pyTruthy_some_of_ne {s : String} (h : s.data ≠ []) :
    pyTruthy (some s) = true := by
  show (!s.data.isEmpty) = true
  cases hd : s.data with
  | nil => exact absurd hd h
  | cons c cs => rfl

lemma strChars_some (s : String) : strChars (some s) = s.data := rfl

lemma used_eval_true (rd : Option String) (ct : Nat) (h : pyTruthy rd = true) :
    OogooUsed.get_publish_date_arabic rd ct
      = match arabicRuleChain (strChars rd) ct with
        | .ok s => some s
        | .error _ => none := by
  unfold OogooUsed.get_publish_date_arabic
  rw [if_pos h]

lemma used_eval_false (rd : Option String) (ct : Nat) (h : pyTruthy rd = false) :
    OogooUsed.get_publish_date_arabic rd ct
      = match fallback3 ct with
        | .ok s => some s
        | .error _ => none := by
  unfold OogooUsed.get_publish_date_arabic
  rw [if_neg (by rw [h]; exact Bool.false_ne_true)]

lemma cert_eval_true (rd : Option String) (ct : Nat) (h : pyTruthy rd = true) :
    OogooCertified.get_publish_date_arabic rd ct
      = match arabicRuleChain (strChars rd) ct with
        | .ok s => .ok s
        | .error _ => fallback3 ct := by
  unfold OogooCertified.get_publish_date_arabic
  rw [if_pos h]

lemma cert_eval_false (rd : Option String) (ct : Nat) (h : pyTruthy rd = false) :
    OogooCertified.get_publish_date_arabic rd ct
      = match fallback3 ct with
        | .ok s => .ok s
        | .error _ => fallback3 ct := by
  unfold OogooCertified.get_publish_date_arabic
  rw [if_neg (by rw [h]; exact Bool.false_ne_true)]

lemma fallback3_eval (ct : Nat) (hct : 259200 ≤ ct) :
    fallback3 ct = .ok (strftime (ct - 259200)) := by
  show (match dtSub ct 259200 with
        | Except.error e => Except.error e
        | Except.ok pt => Except.ok (strftime pt)) = _
  unfold dtSub
  rw [if_pos hct]

lemma chain_default (s : List Char) (ct : Nat)
    (hA : searchNum preChars hourSufChars s = none)
    (hB : containsSub oneDayChars s = false)
    (hC : containsSub twoDaysChars s = false)
    (hD : searchNum preChars threeSufChars s = none)
    (hct : 259200 ≤ ct) :
    arabicRuleChain s ct = .ok (strftime (ct - 259200)) := by
  unfold arabicRuleChain
  rw [hA, hB, hC, hD]
  simp only [Bool.false_eq_true, if_false]
  exact fallback3_eval ct hct

lemma chain_hours (s : List Char) (ct n : Nat)
    (hA : searchNum preChars hourSufChars s = some n)
    (hdelta : n * 3600 / 86400 ≤ 999999999)
    (hct : n * 3600 ≤ ct) :
    arabicRuleChain s ct = .ok (strftime (ct - n * 3600)) := by
  unfold arabicRuleChain
  rw [hA]
  simp only [timedeltaHours, dtSub, if_pos hdelta, if_pos hct]

lemma searchNum_pre_found (suf X : List Char) {n : Nat}
    (h0 : matchNumAt preChars suf (preChars ++ X) = some n) :
    searchNum preChars suf (preChars ++ X) = some n := by
  have e : preChars ++ X
      = 'ن' :: 'ُ' :: 'ش' :: 'ر' :: ' ' :: 'م' :: 'ن' :: 'ذ' :: ' ' :: X := rfl
  rw [e] at h0 ⊢
  rw [searchNum_cons, h0]

lemma bool_eq_false_of_not_true {b : Bool} (h : ¬ b = true) : b = false := by
  cases hb : b
  · rfl
  · exact absurd hb h

/-- C1: on the dual phrase `نُشر منذ يومين` the normalizer of both
scraper variants returns `now - 1 day`, not `now - 2 days`: the
singular rule `نُشر منذ يوم`, tried earlier, already matches the dual
phrase as a substring, so the dedicated dual rule is never reached
(evaluation of the code at the failing input, `now` = 2024-07-15
12:00:00). -/
theorem claim_C1_dual_phrase_rule_order :
    OogooUsed.get_publish_date_arabic (some "نُشر منذ يومين") t0
      = some (strftime (t0 - 86400))
    ∧ OogooCertified.get_publish_date_arabic (some "نُشر منذ يومين") t0
      = .ok (strftime (t0 - 86400))
    ∧ strftime (t0 - 86400) ≠ strftime (t0 - 172800) := by
  exact ⟨by rfl, by rfl, by decide⟩

lemma leadMatch_of_append (pat ext : List Char) :
    ∀ s, leadMatch (pat ++ ext) s = true → leadMatch pat s = true := by
  induction pat with
  | nil => intro s h; rfl
  | cons p ps ih =>
    intro s h
    cases s with
    | nil =>
      rw [List.cons_append,
        show leadMatch (p :: (ps ++ ext)) [] = false from rfl] at h
      exact Bool.noConfusion h
    | cons c cs =>
      rw [List.cons_append, leadMatch_cons] at h
      rw [leadMatch_cons]
      by_cases hpc : p = c
      · rw [if_pos hpc] at h ⊢
        exact ih cs h
      · rw [if_neg hpc] at h
        exact Bool.noConfusion h

lemma containsSub_of_append (pat ext : List Char) :
    ∀ s, containsSub (pat ++ ext) s = true → containsSub pat s = true := by
  intro s
  induction s with
  | nil => exact leadMatch_of_append pat ext []
  | cons c cs ih =>
    intro h
    rw [containsSub_cons] at h ⊢
    rcases Bool.or_eq_true_iff.mp h with h2 | h2
    · rw [leadMatch_of_append pat ext _ h2]
      rfl
    · rw [ih h2, Bool.or_true]

/-- Every input matched by the dual pattern is already matched by the
singular pattern tried before it (the singular literal is a lead of the
dual literal), so the dual branch of the rule chain is unreachable. -/
theorem oneDay_shadows_twoDays (s : List Char)
    (h : containsSub twoDaysChars s = true) : containsSub oneDayChars s = true :=
  containsSub_of_append oneDayChars ('ي' :: 'ن' :: []) s h

/-- C2 counterexample: the `oogoo_used.py` normalizer maps an internal
`timedelta` overflow (100000000000 hours is more than 999999999 days)
to `None`, not to the `now - 3 days` fallback the claim demands. -/
theorem claim_C2_counterexample :
    OogooUsed.get_publish_date_arabic (some "نُشر منذ 100000000000 ساعة") t0
      = none := by decide

/-- C2 amended: no internal error escapes either variant, and an
internal rule-chain error is mapped to the `now - 3 days` fallback by
the certified variant but to `None` by the used variant. -/
theorem claim_C2_amended_error_boundary (rd : Option String) (ct : Nat)
    (hct : 259200 ≤ ct) :
    (∃ s, OogooCertified.get_publish_date_arabic rd ct = .ok s)
    ∧ (pyTruthy rd = true → arabicRuleChain (strChars rd) ct = .error () →
        OogooCertified.get_publish_date_arabic rd ct = .ok (strftime (ct - 259200)))
    ∧ (pyTruthy rd = true → arabicRuleChain (strChars rd) ct = .error () →
        OogooUsed.get_publish_date_arabic rd ct = none) := by
  have hfb := fallback3_eval ct hct
  refine ⟨?_, ?_, ?_⟩
  · by_cases hpt : pyTruthy rd = true
    · rw [cert_eval_true rd ct hpt]
      cases hch : arabicRuleChain (strChars rd) ct with
      | ok s => exact ⟨s, rfl⟩
      | error e => exact ⟨strftime (ct - 259200), by rw [hfb]⟩
    · rw [cert_eval_false rd ct (bool_eq_false_of_not_true hpt), hfb]
      exact ⟨strftime (ct - 259200), rfl⟩
  · intro hpt hch
    rw [cert_eval_true rd ct hpt, hch, hfb]
  · intro hpt hch
    rw [used_eval_true rd ct hpt, hch]

/-- C2 witness: at the overflow phrase the certified variant returns the
fallback and never raises while the used variant returns `None`. -/
theorem claim_C2_witness :
    (∃ s, OogooCertified.get_publish_date_arabic
        (some "نُشر منذ 100000000000 ساعة") t0 = .ok s)
    ∧ OogooCertified.get_publish_date_arabic
        (some "نُشر منذ 100000000000 ساعة") t0 = .ok (strftime (t0 - 259200))
    ∧ OogooUsed.get_publish_date_arabic
        (some "نُشر منذ 100000000000 ساعة") t0 = none := by
  have h := claim_C2_amended_error_boundary
    (some "نُشر منذ 100000000000 ساعة") t0 (by decide)
  exact ⟨h.1, h.2.1 (by decide) (by rfl), h.2.2 (by decide) (by rfl)⟩

/-- C4: a `None` phrase, an empty phrase, or any phrase matched by no
applied pattern rule yields exactly `now - 3 days` in the
`YYYY-MM-DD HH:MM:SS` format from both scraper variants, and no error;
the reference time must admit the 3-day subtraction (every wall-clock
time does). -/
theorem claim_C4_fallback_default (rd : Option String) (ct : Nat)
    (hct : 259200 ≤ ct)
    (hno : pyTruthy rd = false ∨ noRuleMatches (strChars rd) = true) :
    OogooUsed.get_publish_date_arabic rd ct = some (strftime (ct - 259200))
    ∧ OogooCertified.get_publish_date_arabic rd ct
        = .ok (strftime (ct - 259200)) := by
  have hfb := fallback3_eval ct hct
  have hbase : ∀ h : pyTruthy rd = false,
      OogooUsed.get_publish_date_arabic rd ct = some (strftime (ct - 259200))
      ∧ OogooCertified.get_publish_date_arabic rd ct
          = .ok (strftime (ct - 259200)) := by
    intro h
    rw [used_eval_false rd ct h, cert_eval_false rd ct h, hfb]
    exact ⟨rfl, rfl⟩
  rcases hno with h | h
  · exact hbase h
  · unfold noRuleMatches at h
    rw [Bool.and_eq_true, Bool.and_eq_true, Bool.and_eq_true] at h
    obtain ⟨⟨⟨hA, hB⟩, hC⟩, hD⟩ := h
    have hA2 : searchNum preChars hourSufChars (strChars rd) = none :=
      Option.isNone_iff_eq_none.mp hA
    have hD2 : searchNum preChars threeSufChars (strChars rd) = none :=
      Option.isNone_iff_eq_none.mp hD
    have hB2 : containsSub oneDayChars (strChars rd) = false := by
      cases hb : containsSub oneDayChars (strChars rd)
      · rfl
      · rw [hb] at hB
        exact absurd hB (by decide)
    have hC2 : containsSub twoDaysChars (strChars rd) = false := by
      cases hb : containsSub twoDaysChars (strChars rd)
      · rfl
      · rw [hb] at hC
        exact absurd hC (by decide)
    have hchain := chain_default (strChars rd) ct hA2 hB2 hC2 hD2 hct
    by_cases hpt : pyTruthy rd = true
    · rw [used_eval_true rd ct hpt, cert_eval_true rd ct hpt, hchain]
      exact ⟨rfl, rfl⟩
    · exact hbase (bool_eq_false_of_not_true hpt)

/-- C4 witness: a `None` phrase at 2024-07-15 12:00:00 gives exactly
2024-07-12 12:00:00 from both variants. -/
theorem claim_C4_witness :
    OogooUsed.get_publish_date_arabic none t0 = some "2024-07-12 12:00:00"
    ∧ OogooCertified.get_publish_date_arabic none t0
        = .ok "2024-07-12 12:00:00" := by
  have h := claim_C4_fallback_default none t0 (by decide) (Or.inl (by decide))
  have hs : strftime (t0 - 259200) = "2024-07-12 12:00:00" := by decide
  rw [h.1, h.2, hs]
  exact ⟨rfl, rfl⟩

/-- C5: for every digit rendering of a natural number N, the phrase
`نُشر منذ N ساعة` is normalized to `now - N hours` formatted to second
precision, whenever the subtraction is representable (the `timedelta`
bound and `datetime.min` bound of CPython). -/
theorem claim_C5_hours_rule (phrase : String) (ds : List Char) (ct : Nat)
    (hph : phrase.data = preChars ++ (ds ++ hourSufChars))
    (hne : ds ≠ []) (hdig : ∀ c ∈ ds, isAsciiDigit c = true)
    (hdelta : digitsToNat ds * 3600 / 86400 ≤ 999999999)
    (hct : digitsToNat ds * 3600 ≤ ct) :
    OogooUsed.get_publish_date_arabic (some phrase) ct
      = some (strftime (ct - digitsToNat ds * 3600)) := by
  have htr : pyTruthy (some phrase) = true := by
    refine pyTruthy_some_of_ne ?_
    rw [hph]
    intro hc
    rw [List.append_eq_nil] at hc
    exact absurd hc.1 (by decide)
  have hm0 : matchNumAt preChars hourSufChars (preChars ++ (ds ++ hourSufChars))
      = some (digitsToNat ds) :=
    matchNumAt_at_zero_some hourSufChars ds hourSufChars [] hne hdig (by decide)
      (dropLead_self hourSufChars)
  have hsearch : searchNum preChars hourSufChars phrase.data
      = some (digitsToNat ds) := by
    rw [hph]
    exact searchNum_pre_found hourSufChars (ds ++ hourSufChars) hm0
  rw [used_eval_true (some phrase) ct htr, strChars_some,
    chain_hours phrase.data ct (digitsToNat ds) hsearch hdelta hct]

/-- C5 witness: the spec's own example, `نُشر منذ 3 ساعة` at 2024-07-15
12:00:00, normalizes to 2024-07-15 09:00:00. -/
theorem claim_C5_witness :
    OogooUsed.get_publish_date_arabic (some "نُشر منذ 3 ساعة") t0
      = some "2024-07-15 09:00:00" := by
  have h := claim_C5_hours_rule "نُشر منذ 3 ساعة" ('3' :: []) t0 (by decide)
    (by decide) (by decide) (by decide) (by decide)
  have hs : strftime (t0 - digitsToNat ('3' :: []) * 3600) = "2024-07-15 09:00:00" := by
    decide
  rw [h, hs]

/-- C10: the numeric singular-noun day phrase `نُشر منذ N يوم` (the
Arabic form used for N of 11 and above) is matched by no applied rule -
the defined `day_pattern` is never consulted - so the result is the
`now - 3 days` fallback, for every digit rendering of N. -/
theorem claim_C10_numeric_day_fallback (phrase : String) (ds : List Char)
    (ct : Nat) (hph : phrase.data = preChars ++ (ds ++ daySufChars))
    (hne : ds ≠ []) (hdig : ∀ c ∈ ds, isAsciiDigit c = true)
    (hct : 259200 ≤ ct) :
    OogooUsed.get_publish_date_arabic (some phrase) ct
      = some (strftime (ct - 259200)) := by
  obtain ⟨d, ds2, rfl⟩ : ∃ d ds2, ds = d :: ds2 := by
    cases ds with
    | nil => exact absurd rfl hne
    | cons d ds2 => exact ⟨d, ds2, rfl⟩
  have hd0 : isAsciiDigit d = true := hdig d (List.mem_cons_self d ds2)
  have htr : pyTruthy (some phrase) = true := by
    refine pyTruthy_some_of_ne ?_
    rw [hph]
    intro hc
    rw [List.append_eq_nil] at hc
    exact absurd hc.1 (by decide)
  have hA : searchNum preChars hourSufChars phrase.data = none := by
    rw [hph, searchNum_skip_pre hourSufChars _
        (matchNumAt_at_zero_none hourSufChars (d :: ds2) daySufChars hdig
          (by decide) (by decide)),
      searchNum_skip_digits hourSufChars (d :: ds2) daySufChars hdig]
    decide
  have hD : searchNum preChars threeSufChars phrase.data = none := by
    rw [hph, searchNum_skip_pre threeSufChars _
        (matchNumAt_at_zero_none threeSufChars (d :: ds2) daySufChars hdig
          (by decide) (by decide)),
      searchNum_skip_digits threeSufChars (d :: ds2) daySufChars hdig]
    decide
  have hB : containsSub oneDayChars phrase.data = false := by
    rw [hph, show oneDayChars = preChars ++ ('ي' :: 'و' :: 'م' :: []) from rfl,
      containsSub_skip_pre ('ي' :: 'و' :: 'م' :: []) (d :: ds2 ++ daySufChars)
        (by rw [leadMatch_append_both, List.cons_append]
            exact leadMatch_head_ne _ _ (digit_ne (by decide) hd0)),
      containsSub_skip_digits ('ي' :: 'و' :: 'م' :: []) (d :: ds2) daySufChars hdig]
    decide
  have hC : containsSub twoDaysChars phrase.data = false := by
    rw [hph,
      show twoDaysChars = preChars ++ ('ي' :: 'و' :: 'م' :: 'ي' :: 'ن' :: []) from rfl,
      containsSub_skip_pre ('ي' :: 'و' :: 'م' :: 'ي' :: 'ن' :: []) (d :: ds2 ++ daySufChars)
        (by rw [leadMatch_append_both, List.cons_append]
            exact leadMatch_head_ne _ _ (digit_ne (by decide) hd0)),
      containsSub_skip_digits ('ي' :: 'و' :: 'م' :: 'ي' :: 'ن' :: []) (d :: ds2)
        daySufChars hdig]
    decide
  rw [used_eval_true (some phrase) ct htr, strChars_some,
    chain_default phrase.data ct hA hB hC hD hct]

/-- C10 witness: `نُشر منذ 15 يوم` at 2024-07-15 12:00:00 falls back to
2024-07-12 12:00:00 instead of 2024-06-30. -/
theorem claim_C10_witness :
    OogooUsed.get_publish_date_arabic (some "نُشر منذ 15 يوم") t0
      = some "2024-07-12 12:00:00" := by
  have h := claim_C10_numeric_day_fallback "نُشر منذ 15 يوم" ('1' :: '5' :: [])
    t0 (by decide) (by decide) (by decide) (by decide)
  have hs : strftime (t0 - 259200) = "2024-07-12 12:00:00" := by decide
  rw [h, hs]

lemma rangeFrom_eq : ∀ (n a : Nat), rangeFrom a n = List.range' a n := by
  intro n
  induction n with
  | zero => intro a; rfl
  | succ n ih =>
    intro a
    show a :: rangeFrom (a + 1) n = a :: List.range' (a + 1) n
    rw [ih (a + 1)]

lemma walkGo_cons {α : Type} (outcome : Nat → Except (List α) (List α))
    (total attempt : Nat) (rest : List Nat) (cars : List α) (pages : Nat) :
    OogooUsed.walkGo outcome total (attempt :: rest) cars pages
      = match outcome attempt with
        | .ok recs => (cars ++ recs, if attempt + 1 < total then pages + 1 else pages)
        | .error recs =>
          if attempt + 1 = total
          then (cars ++ recs, if attempt + 1 < total then pages + 1 else pages)
          else OogooUsed.walkGo outcome total rest (cars ++ recs)
                 (if attempt + 1 < total then pages + 1 else pages) := rfl

lemma walkGo_run {α : Type} (outcome : Nat → Except (List α) (List α))
    (p : Nat → List α) (total : Nat)
    (hFail : ∀ i, i + 1 < total → outcome i = .error (p i)) :
    ∀ n a (cars : List α) (pages : Nat), a + (n + 1) = total →
      OogooUsed.walkGo outcome total (rangeFrom a (n + 1)) cars pages
        = (cars ++ (catFrom p a n ++ lastRecs outcome total), pages + n) := by
  intro n
  induction n with
  | zero =>
    intro a cars pages ha
    have hj : total - 1 = a := by omega
    rw [show rangeFrom a 1 = a :: rangeFrom (a + 1) 0 from rfl, walkGo_cons]
    unfold lastRecs
    rw [hj]
    cases houtcome : outcome a with
    | ok recs =>
      rw [if_neg (show ¬ a + 1 < total by omega)]
      show (cars ++ recs, pages) = (cars ++ ([] ++ recs), pages + 0)
      simp
    | error recs =>
      show (if a + 1 = total
            then (cars ++ recs, if a + 1 < total then pages + 1 else pages)
            else OogooUsed.walkGo outcome total (rangeFrom (a + 1) 0)
                   (cars ++ recs) (if a + 1 < total then pages + 1 else pages))
          = (cars ++ ([] ++ recs), pages + 0)
      rw [if_pos (show a + 1 = total by omega),
        if_neg (show ¬ a + 1 < total by omega)]
      simp
  | succ n ih =>
    intro a cars pages ha
    have hi : a + 1 < total := by omega
    rw [show rangeFrom a (n + 2) = a :: rangeFrom (a + 1) (n + 1) from rfl,
      walkGo_cons, hFail a hi]
    show (if a + 1 = total
          then (cars ++ p a, if a + 1 < total then pages + 1 else pages)
          else OogooUsed.walkGo outcome total (rangeFrom (a + 1) (n + 1))
                 (cars ++ p a) (if a + 1 < total then pages + 1 else pages))
        = (cars ++ (catFrom p a (n + 1) ++ lastRecs outcome total), pages + (n + 1))
    rw [if_neg (show ¬ a + 1 = total by omega), if_pos hi,
      ih (a + 1) (cars ++ p a) (pages + 1) (by omega),
      show catFrom p a (n + 1) = p a ++ catFrom p (a + 1) n from rfl]
    congr 1
    · simp [List.append_assoc]
    · omega

/-- C3: the listing page walker is a total function of the attempt
outcomes (no attempt failure escapes it); when every non-final attempt
throws with partial records `p i` appended and the final attempt either
succeeds with `recs` or also throws after appending `recs`, the walker
returns all partial records in order followed by the final attempt's
records, having opened exactly `retries` session pages (the initial one
plus one fresh page after each failed non-final attempt). -/
theorem claim_C3_walker_retry {α : Type} (retries : Nat)
    (outcome : Nat → Except (List α) (List α)) (p : Nat → List α)
    (recs : List α) (hr : 1 ≤ retries)
    (hFail : ∀ i, i + 1 < retries → outcome i = .error (p i)) :
    (outcome (retries - 1) = .ok recs →
      OogooUsed.get_car_details outcome retries
        = (catFrom p 0 (retries - 1) ++ recs, retries))
    ∧ (outcome (retries - 1) = .error recs →
      OogooUsed.get_car_details outcome retries
        = (catFrom p 0 (retries - 1) ++ recs, retries)) := by
  obtain ⟨m, rfl⟩ : ∃ m, retries = m + 1 := ⟨retries - 1, by omega⟩
  have hrun := walkGo_run outcome p (m + 1) hFail m 0 [] 1 (by omega)
  have hmain : OogooUsed.get_car_details outcome (m + 1)
      = (catFrom p 0 m ++ lastRecs outcome (m + 1), 1 + m) := by
    unfold OogooUsed.get_car_details
    rw [List.range_eq_range', ← rangeFrom_eq, hrun]
    simp
  constructor
  · intro hlast
    rw [hmain]
    unfold lastRecs
    rw [hlast]
    congr 1
    omega
  · intro hlast
    rw [hmain]
    unfold lastRecs
    rw [hlast]
    congr 1
    omega

/-- C3 witness: with a budget of 3, two throwing load attempts followed
by a successful one return the third attempt's records and exactly 3
page opens. -/
theorem claim_C3_witness :
    OogooUsed.get_car_details
      (fun i => if i < 2 then Except.error ([] : List String)
                else .ok ("car1" :: [])) 3
      = ("car1" :: [], 3) := by
  have h := (claim_C3_walker_retry 3
    (fun i => if i < 2 then Except.error ([] : List String)
              else .ok ("car1" :: []))
    (fun _ => []) ("car1" :: []) (by decide)
    (fun i hi => by
      have h2 : i < 2 := by omega
      simp [h2])).1 (by rfl)
  simpa [catFrom] using h

/-- C6: a detail link that is `None`, empty, or not led by the canonical
origin short-circuits to the all-empty detail record without reaching
navigation, and a navigation failure yields the same all-empty
record. -/
theorem claim_C6_short_circuit :
    (∀ (url : Option String) (fetch : Except Unit DetailRecord),
        (pyTruthy url && leadMatch originChars (strChars url)) = false →
        scrape_more_details url fetch = (emptyDetail, false))
    ∧ (∀ url : Option String,
        (scrape_more_details url (Except.error ())).1 = emptyDetail) := by
  constructor
  · intro url fetch h
    unfold scrape_more_details
    rw [h]
    rfl
  · intro url
    unfold scrape_more_details
    by_cases h : (pyTruthy url && leadMatch originChars (strChars url)) = true
    · rw [h]
      rfl
    · rw [bool_eq_false_of_not_true h]
      rfl

/-- C6 witness: a relative link never resolves (no navigation flag,
all-empty record) even when a full fetch result is on offer, and an
origin-led link whose navigation throws degrades to the same record. -/
theorem claim_C6_witness :
    scrape_more_details (some "/ar/vehicle/123") (Except.ok sampleDetail)
      = (emptyDetail, false)
    ∧ (scrape_more_details (some "https://oogoocar.com/ar/vehicle/123")
        (Except.error ())).1 = emptyDetail := by
  exact ⟨claim_C6_short_circuit.1 (some "/ar/vehicle/123")
      (Except.ok sampleDetail) (by decide),
    claim_C6_short_circuit.2 (some "https://oogoocar.com/ar/vehicle/123")⟩

/-- C8 counterexample: with the title container present and the distance
sub-element missing, the returned fallback literal is
`"Distance not found"`, not the claim's `"distance not found"`. -/
theorem claim_C8_counterexample :
    scrape_title (some (some "ix35 2015", none))
      = { model := some "ix35 2015", distance := some "Distance not found" }
    ∧ scrape_title (some (some "ix35 2015", none))
      ≠ { model := some "ix35 2015", distance := some "distance not found" } := by
  exact ⟨by rfl, by decide⟩

/-- C8 amended: a missing title container yields `{model: None,
distance: None}`; a present container with a missing distance
sub-element yields the model text with the literal `"Distance not
found"`, and a missing model sub-element yields the literal
`"Model not found"`. -/
theorem claim_C8_amended_title_fallback :
    scrape_title none = { model := none, distance := none }
    ∧ (∀ m : String, scrape_title (some (some m, none))
        = { model := some m, distance := some "Distance not found" })
    ∧ (∀ d : Option String,
        (scrape_title (some (none, d))).model = some "Model not found") := by
  exact ⟨rfl, fun m => rfl, fun d => rfl⟩

/-- C7 counterexample: in the showrooms pipeline, a run with no
credential in the environment still completes scraping and then maps
the missing-credential raise inside `upload_to_drive` to a log entry -
the configuration fault is caught after scraping, not raised before
it. -/
theorem claim_C7_counterexample :
    showrooms_get_car_details ([] : List (String × String))
      ("showroom1" :: []) (some "showrooms_data.xlsx")
      = ("showroom1" :: [],
         some (UploadResult.loggedError
           "Error uploading to Google Drive: SHOWROOMS_GCLOUD_KEY_JSON environment variable not found")) := by
  rfl

/-- C7 amended: the main pipeline checks its credential at module load
and raises before any scraping object exists, but the showrooms
pipeline has no upfront check - its missing credential surfaces only
inside `upload_to_drive`, after scraping, where it is caught and
degraded to a log entry. -/
theorem claim_C7_amended_env_check (env : List (String × String)) :
    ((env.map Prod.fst).contains "OGO_GCLOUD_KEY_JSON" = false →
      mainModuleCheck env = .error "OGO_GCLOUD_KEY_JSON not found.")
    ∧ (List.lookup "SHOWROOMS_GCLOUD_KEY_JSON" env = none →
      ∀ (scraped : List String) (f : String),
        showrooms_get_car_details env scraped (some f)
          = (scraped, some (UploadResult.loggedError
              "Error uploading to Google Drive: SHOWROOMS_GCLOUD_KEY_JSON environment variable not found"))) := by
  constructor
  · intro h
    unfold mainModuleCheck
    rw [h]
    rfl
  · intro h scraped f
    unfold showrooms_get_car_details showrooms_upload_to_drive showrooms_upload_body
    rw [h]
    rfl

/-- C7 witness: the empty environment fails the main pipeline's import
check immediately, while the showrooms pipeline scrapes and logs. -/
theorem claim_C7_witness :
    mainModuleCheck [] = .error "OGO_GCLOUD_KEY_JSON not found."
    ∧ showrooms_get_car_details ([] : List (String × String))
        ("x" :: []) (some "f.xlsx")
      = ("x" :: [], some (UploadResult.loggedError
          "Error uploading to Google Drive: SHOWROOMS_GCLOUD_KEY_JSON environment variable not found")) := by
  have h := claim_C7_amended_env_check []
  exact ⟨h.1 (by decide), h.2 (by rfl) ("x" :: []) "f.xlsx"⟩

lemma filter_data_cons (yesterday : String) (car : CarRecord)
    (rest : List CarRecord) :
    filter_data yesterday (car :: rest)
      = match pySplitHead car.date_published with
        | .error _ => ([], true)
        | .ok d =>
          if d = yesterday
          then ((car :: (filter_data yesterday rest).1),
                (filter_data yesterday rest).2)
          else filter_data yesterday rest := rfl

/-- C9 counterexample: a page whose record list holds a well-formed
matching record before a `None`-dated record does raise inside
`filter_data`, yet the matching record has already been appended - the
page's output is not empty, contradicting the claim that none of the
page's records are appended. -/
theorem claim_C9_counterexample :
    (filter_data "2024-07-14" (goodCar :: badCar :: [])).2 = true
    ∧ (filter_data "2024-07-14" (goodCar :: badCar :: [])).1 = goodCar :: [] := by
  exact ⟨by decide, by decide⟩

/-- C9 amended: a record with a `None` or whitespace-only
`date_published` makes `filter_data` raise (swallowed by the per-page
`try`), records from the faulting record onwards are never examined,
and the matching records appended before the fault are retained in the
filtered output, not rolled back. -/
theorem claim_C9_amended_filter_partial (yesterday : String)
    (pre post : List CarRecord) (bad : CarRecord)
    (hbad : pySplitHead bad.date_published = .error ())
    (hpre : ∀ c ∈ pre, exceptOk (pySplitHead c.date_published) = true) :
    filter_data yesterday (pre ++ bad :: post)
      = (pre.filter (keepsCar yesterday), true)
    ∧ ∀ d : List CarRecord,
        scrape_used_page yesterday (.ok (pre ++ bad :: post)) d
          = d ++ pre.filter (keepsCar yesterday) := by
  have hmain : filter_data yesterday (pre ++ bad :: post)
      = (pre.filter (keepsCar yesterday), true) := by
    induction pre with
    | nil =>
      show filter_data yesterday (bad :: post) = _
      simp only [filter_data_cons, hbad]
      rfl
    | cons c pre ih =>
      have hc := hpre c (List.mem_cons_self c pre)
      obtain ⟨dstr, hd⟩ : ∃ dstr, pySplitHead c.date_published = .ok dstr := by
        cases hx : pySplitHead c.date_published with
        | ok v => exact ⟨v, rfl⟩
        | error e =>
          rw [hx] at hc
          exact Bool.noConfusion hc
      have ih2 := ih (fun x hx => hpre x (List.mem_cons_of_mem c hx))
      simp only [List.cons_append, filter_data_cons, hd]
      by_cases hdy : dstr = yesterday
      · have hk : keepsCar yesterday c = true := by
          unfold keepsCar
          rw [hd, hdy]
          exact beq_self_eq_true yesterday
        rw [if_pos hdy, ih2, List.filter_cons_of_pos hk]
      · have hk : keepsCar yesterday c = false := by
          unfold keepsCar
          rw [hd]
          exact beq_eq_false_iff_ne.mpr hdy
        rw [if_neg hdy, ih2,
          List.filter_cons_of_neg (by rw [hk]; exact Bool.false_ne_true)]
  constructor
  · exact hmain
  · intro d
    show d ++ (filter_data yesterday (pre ++ bad :: post)).1
        = d ++ pre.filter (keepsCar yesterday)
    rw [hmain]

/-- C9 witness: one matching record followed by a `None`-dated record -
the raise is flagged, the matching record stays appended, and the
page-level handler leaves it in `data_used`. -/
theorem claim_C9_witness :
    filter_data "2024-07-14" (goodCar :: badCar :: []) = (goodCar :: [], true)
    ∧ ∀ d : List CarRecord,
        scrape_used_page "2024-07-14" (.ok (goodCar :: badCar :: [])) d
          = d ++ (goodCar :: []) := by
  have h := claim_C9_amended_filter_partial "2024-07-14" (goodCar :: []) []
    badCar (by rfl) (by decide)
  exact ⟨h.1, fun d => h.2 d⟩
